import Mathlib

/-!
Shallow embedding of the SkyParty backend (src/server.js), restricted to the
parts the specification's claims are about: the credits ledger
(`POST /api/credits/update`), character purchase (`POST /api/characters/purchase`),
the JSON-file mailbox gift handler (`POST /api/mailbox/claim-gift`), the SQL gift
handlers (`POST /api/gifts/:giftId/claim`, `POST /api/gifts/:giftId/reject`) and the
catalog listing (`GET /api/characters`).

Modelling conventions:
- The flat JSON key-value store (`Database.read`/`Database.write`) is modelled by a
  `Store` record whose per-user collections (`transactions`, `inventory_<id>`,
  `mailbox_<id>`) are total functions from user id to a list, the empty list being
  the store's default for a missing file.
- JavaScript `===` comparisons become decidable equality; generated UUIDs and
  ISO timestamps carry no information the claims mention and are elided from the
  records; machine integers are modelled by `Int` (JS numbers on the integer
  values the handlers compute with).
- Each HTTP handler becomes a pure function from the store and the request fields
  to a response value paired with the updated store; an early `return res.json`
  becomes returning the response together with the store as written so far.
-/

/-- A user record from the `users` JSON object, restricted to the fields the
claims mention (`Object.values(users)` iteration order is the list order;
the write-back `users[user.email] = user` replaces the found record). -/
structure User where
  id : Nat
  email : String
  gameCredits : Int
  ownedCharacters : List String
deriving DecidableEq, Repr

/-- A transaction log entry as pushed by `POST /api/credits/update`
(generated `id` and `timestamp` elided). -/
structure Txn where
  amount : Int
  type : String
  balance : Int
deriving DecidableEq, Repr

/-- The `giftData` payload embedded in a mailbox gift (the snapshot sent by the
client: character identity and display fields, or a credit `amount`). -/
structure GiftData where
  characterId : String
  name : String
  icon : String
  description : String
  price : Int
  amount : Int
deriving DecidableEq, Repr

/-- An inventory row as pushed into `inventory_<userId>` (generated `id` and
`acquiredDate` elided; the claims only mention the content and `source` fields). -/
structure InventoryItem where
  characterId : String
  name : String
  icon : String
  description : String
  price : Int
  source : String
deriving DecidableEq, Repr

/-- The inventory row built from a gift's `giftData` by spread
(`{...gift.giftData, id, acquiredDate, source}`). -/
def invItemOf (d : GiftData) (source : String) : InventoryItem :=
  { characterId := d.characterId, name := d.name, icon := d.icon,
    description := d.description, price := d.price, source := source }

/-- A mailbox gift as created by `POST /api/mailbox/send-gift`: a flat record
with boolean `read`/`claimed` flags (there is no three-valued status field in
this store). -/
structure MGift where
  id : Nat
  senderId : Nat
  recipientId : Nat
  giftType : String
  giftData : GiftData
  message : String
  read : Bool
  claimed : Bool
deriving DecidableEq, Repr

/-- The JSON-file store: the `users` object plus the per-user collection files.
A missing file reads back as the empty collection. -/
structure Store where
  users : List User
  transactions : Nat → List Txn
  inventories : Nat → List InventoryItem
  mailboxes : Nat → List MGift

/-- Replace the first user whose `id` matches (the JS handlers look the user up
with `find` and write the same record back under its email key). -/
def updateUserById : List User → Nat → User → List User
  | [], _, _ => []
  | v :: vs, userId, u => if v.id == userId then u :: vs else v :: updateUserById vs userId u

/-- Response of `POST /api/credits/update`. -/
inductive CreditsResp where
  | userNotFound
  | insufficientCredits
  | ok (newBalance : Int)
deriving DecidableEq, Repr

/-- The tail of `POST /api/credits/update` after the operation branch: write the
user back and push the transaction entry
(`amount: operation === 'add' ? amount : -amount, type: operation`). -/
def creditsFinish (st : Store) (userId : Nat) (u : User) (amount : Int)
    (operation : String) : CreditsResp × Store :=
  let st1 : Store := { st with users := updateUserById st.users userId u }
  let txn : Txn := { amount := if operation = "add" then amount else -amount,
                     type := operation, balance := u.gameCredits }
  let st2 : Store := { st1 with
    transactions := Function.update st1.transactions userId (st1.transactions userId ++ [txn]) }
  (.ok u.gameCredits, st2)

/-- `POST /api/credits/update` (src/server.js lines 299-352). -/
def creditsUpdate (st : Store) (userId : Nat) (amount : Int) (operation : String) :
    CreditsResp × Store :=
  match st.users.find? (fun u => u.id == userId) with
  | none => (.userNotFound, st)
  | some user =>
    if operation = "add" then
      creditsFinish st userId { user with gameCredits := user.gameCredits + amount } amount operation
    else if operation = "subtract" then
      if user.gameCredits < amount then
        (.insufficientCredits, st)
      else
        creditsFinish st userId { user with gameCredits := user.gameCredits - amount } amount operation
    else
      creditsFinish st userId user amount operation

/-- The `characterData` payload of `POST /api/characters/purchase`. -/
structure CharacterData where
  name : String
  icon : String
  description : String
  price : Int
deriving DecidableEq, Repr

/-- Response of `POST /api/characters/purchase`. -/
inductive PurchaseResp where
  | userNotFound
  | insufficientCredits
  | ok (newBalance : Int) (ownedCharacters : List String)
deriving DecidableEq, Repr

/-- `POST /api/characters/purchase` (src/server.js lines 355-412). -/
def purchaseCharacter (st : Store) (userId : Nat) (characterId : String)
    (cd : CharacterData) : PurchaseResp × Store :=
  match st.users.find? (fun u => u.id == userId) with
  | none => (.userNotFound, st)
  | some user =>
    if user.gameCredits < cd.price then
      (.insufficientCredits, st)
    else
      let u : User := { user with
        gameCredits := user.gameCredits - cd.price,
        ownedCharacters :=
          if user.ownedCharacters.contains characterId then user.ownedCharacters
          else user.ownedCharacters ++ [characterId] }
      let item : InventoryItem :=
        { characterId := characterId, name := cd.name, icon := cd.icon,
          description := cd.description, price := cd.price, source := "purchase" }
      let st1 : Store := { st with users := updateUserById st.users userId u }
      let st2 : Store := { st1 with
        inventories := Function.update st1.inventories userId (st1.inventories userId ++ [item]) }
      (.ok u.gameCredits u.ownedCharacters, st2)

/-- Response of `POST /api/mailbox/claim-gift`. -/
inductive MailboxResp where
  | ok (message : String)
  | notFound (error : String)
  | serverError (error : String)
deriving DecidableEq, Repr

/-- Write a gift record back at the position `findIndex` located
(`mailbox[giftIndex] = gift`): replace the first record with the matching id. -/
def mailboxReplace : List MGift → Nat → MGift → List MGift
  | [], _, _ => []
  | g :: gs, giftId, g' =>
    if g.id == giftId then g' :: gs else g :: mailboxReplace gs giftId g'

/-- The tail of `POST /api/mailbox/claim-gift`: write the (possibly updated)
gift record back into the acting user's mailbox and answer
`Gift ${action}ed successfully`. -/
def finishMailbox (st : Store) (userId giftId : Nat) (g' : MGift) (action : String) :
    MailboxResp × Store :=
  (.ok ("Gift " ++ action ++ "ed successfully"),
   { st with mailboxes :=
       Function.update st.mailboxes userId (mailboxReplace (st.mailboxes userId) giftId g') })

/-- `POST /api/mailbox/claim-gift` (src/server.js lines 682-751). The handler
finds the gift in the acting user's own mailbox with no check of its `claimed`
flag. On `accept` of a `credits` gift the code calls `this.updateUserCredits`,
which is not defined anywhere in the module: the call throws, the catch block
answers 500, and nothing has been written at that point. An action other than
`accept`/`reject` skips both branches but still writes the mailbox back and
answers success. -/
def claimGiftMailbox (st : Store) (userId : Nat) (giftId : Nat) (action : String) :
    MailboxResp × Store :=
  match (st.mailboxes userId).find? (fun g => g.id == giftId) with
  | none => (.notFound "Gift not found", st)
  | some gift =>
    if action = "accept" then
      if gift.giftType = "character" then
        let st1 : Store := { st with
          inventories := Function.update st.inventories userId
                           (st.inventories userId ++ [invItemOf gift.giftData "gift"]) }
        let st2 : Store :=
          match st1.users.find? (fun u => u.id == userId) with
          | some user =>
            if user.ownedCharacters.contains gift.giftData.characterId then st1
            else
              let user' : User := { user with
                ownedCharacters := user.ownedCharacters ++ [gift.giftData.characterId] }
              { st1 with users := updateUserById st1.users userId user' }
          | none => st1
        finishMailbox st2 userId giftId { gift with claimed := true, read := true } action
      else if gift.giftType = "credits" then
        (.serverError "Failed to process gift", st)
      else
        finishMailbox st userId giftId { gift with claimed := true, read := true } action
    else if action = "reject" then
      if gift.giftType = "character" then
        let st1 : Store := { st with
          inventories := Function.update st.inventories gift.senderId
                           (st.inventories gift.senderId ++ [invItemOf gift.giftData "returned"]) }
        finishMailbox st1 userId giftId { gift with claimed := true, read := true } action
      else
        finishMailbox st userId giftId { gift with claimed := true, read := true } action
    else
      finishMailbox st userId giftId gift action

/-- A row of the `characters` table (`created_at` elided). -/
structure Character where
  id : Nat
  name : String
  icon : String
  price : Int
  description : String
  is_active : Bool
deriving DecidableEq, Repr

/-- A row of the `gifts` table (`created_at`/`claimed_at` timestamps elided). -/
structure SqlGift where
  id : Nat
  sender_id : Nat
  recipient_id : Nat
  item_type : String
  item_name : String
  item_icon : String
  item_description : String
  item_price : Int
  message : String
  status : String
deriving DecidableEq, Repr

/-- A row of the `user_characters` table (`acquired_at` elided). -/
structure UserCharacter where
  user_id : Nat
  character_id : Nat
  quantity : Int
  acquired_via : String
deriving DecidableEq, Repr

/-- The relational store used by the `/api/gifts` and `/api/characters`
handlers, restricted to the tables they touch. -/
structure SqlDb where
  characters : List Character
  gifts : List SqlGift
  user_characters : List UserCharacter
deriving DecidableEq, Repr

/-- Response of the SQL gift handlers. -/
inductive SqlResp where
  | ok (message : String)
  | notFound (error : String)
deriving DecidableEq, Repr

/-- `INSERT INTO user_characters ... ON CONFLICT (user_id, character_id)
DO UPDATE SET quantity = user_characters.quantity + 1`: if a row with the two
key columns exists it gets its quantity incremented (keeping its
`acquired_via`), otherwise a fresh row with quantity 1 and
`acquired_via = 'gift'` is inserted. -/
def upsertUserChar (rows : List UserCharacter) (userId charId : Nat) : List UserCharacter :=
  if rows.any (fun r => r.user_id == userId && r.character_id == charId) then
    rows.map (fun r =>
      if r.user_id == userId && r.character_id == charId then
        { r with quantity := r.quantity + 1 }
      else r)
  else
    rows ++ [{ user_id := userId, character_id := charId, quantity := 1, acquired_via := "gift" }]

/-- `POST /api/gifts/:giftId/claim` (src/server.js lines 1916-1973). The
`SELECT` requires id, recipient and `status = 'pending'`; the subsequent
`UPDATE gifts SET status = 'claimed' WHERE id = $1` is keyed by id alone.
For a `character` gift the character is looked up by the gift's `item_name`
and upserted into `user_characters`; no branch handles a `credits` gift. -/
def sqlClaim (db : SqlDb) (giftId userId : Nat) : SqlResp × SqlDb :=
  match db.gifts.find? (fun g =>
      g.id == giftId && g.recipient_id == userId && g.status == "pending") with
  | none => (.notFound "Gift not found or already claimed", db)
  | some gift =>
    let db1 : SqlDb := { db with
      gifts := db.gifts.map (fun g => if g.id == giftId then { g with status := "claimed" } else g) }
    if gift.item_type = "character" then
      match db.characters.find? (fun c => c.name == gift.item_name) with
      | some ch =>
        (.ok "Gift claimed successfully",
         { db1 with user_characters := upsertUserChar db1.user_characters userId ch.id })
      | none => (.ok "Gift claimed successfully", db1)
    else
      (.ok "Gift claimed successfully", db1)

/-- The row predicate of the reject `UPDATE`'s `WHERE` clause. -/
def rejectPred (giftId userId : Nat) (g : SqlGift) : Bool :=
  g.id == giftId && g.recipient_id == userId && g.status == "pending"

/-- `POST /api/gifts/:giftId/reject` (src/server.js lines 1975-2004):
`UPDATE gifts SET status = 'rejected' WHERE id = $1 AND recipient_id = $2 AND
status = 'pending'`, answering 404 when the affected-row count is zero. The
gift's item is not touched: nothing is written back to the sender. -/
def sqlReject (db : SqlDb) (giftId userId : Nat) : SqlResp × SqlDb :=
  let rowCount := db.gifts.countP (rejectPred giftId userId)
  let db1 : SqlDb := { db with
    gifts := db.gifts.map (fun g =>
      if rejectPred giftId userId g then { g with status := "rejected" } else g) }
  if rowCount = 0 then (.notFound "Gift not found or already processed", db1)
  else (.ok "Gift rejected successfully", db1)

/-- The comparator of `ORDER BY price ASC`: by price alone. -/
def priceLE (a b : Character) : Prop := a.price ≤ b.price

instance : DecidableRel priceLE :=
  fun a b => inferInstanceAs (Decidable (a.price ≤ b.price))

instance : IsTotal Character priceLE := ⟨fun a b => le_total a.price b.price⟩

instance : IsTrans Character priceLE := ⟨fun _ _ _ h1 h2 => le_trans h1 h2⟩

/-- `GET /api/characters` (src/server.js lines 1427-1446):
`SELECT ... FROM characters WHERE is_active = true ORDER BY price ASC` —
rows filtered on `is_active` and sorted by `price` alone (a stable sort,
keeping the table's row order between equal prices). -/
def listActive (db : SqlDb) : List Character :=
  List.insertionSort priceLE (db.characters.filter (fun c => c.is_active))

/-- The ordering the spec asserts for the catalog listing: ascending price with
ties broken by ascending name. -/
def priceNameLE (a b : Character) : Prop :=
  a.price < b.price ∨ (a.price = b.price ∧ a.name ≤ b.name)

instance : DecidableRel priceNameLE :=
  fun a b => inferInstanceAs (Decidable (a.price < b.price ∨ (a.price = b.price ∧ a.name ≤ b.name)))

/-- A sequence of `POST /api/credits/update` requests, applied in order. -/
def runCredits (st : Store) (ops : List (Nat × Int × String)) : Store :=
  ops.foldl (fun s p => (creditsUpdate s p.1 p.2.1 p.2.2).2) st

/-- The stored balance of a user, read back the way the handlers read it. -/
def balanceOf (st : Store) (userId : Nat) : Option Int :=
  (st.users.find? (fun u => u.id == userId)).map User.gameCredits

/-! Concrete fixtures used by the counterexamples and witnesses below. -/

/-- Snapshot data of a character gift. -/
def gdDragon : GiftData :=
  { characterId := "dragon", name := "dragon", icon := "D", description := "a dragon",
    price := 500, amount := 0 }

/-- Snapshot data of a 50-credit gift. -/
def gdCredits : GiftData :=
  { characterId := "", name := "Game Credits", icon := "C", description := "",
    price := 0, amount := 50 }

/-- A pending mailbox character gift from user 1 to user 2. -/
def mgDragon : MGift :=
  { id := 1, senderId := 1, recipientId := 2, giftType := "character", giftData := gdDragon,
    message := "", read := false, claimed := false }

/-- A pending mailbox credits gift from user 1 to user 2. -/
def mgCredits : MGift :=
  { id := 1, senderId := 1, recipientId := 2, giftType := "credits", giftData := gdCredits,
    message := "", read := false, claimed := false }

/-- User 2 with 100 credits and no owned characters. -/
def user2 : User := { id := 2, email := "b@example.com", gameCredits := 100, ownedCharacters := [] }

/-- A store whose only user is user 2 and whose only mailbox entry is a given gift. -/
def mailStore (g : MGift) : Store :=
  { users := [user2],
    transactions := fun _ => [],
    inventories := fun _ => [],
    mailboxes := fun uid => if uid = 2 then [g] else [] }

/-- A store with a single user of balance 0 (for the negative-amount counterexample). -/
def stZero : Store :=
  { users := [{ id := 1, email := "a@example.com", gameCredits := 0, ownedCharacters := [] }],
    transactions := fun _ => [], inventories := fun _ => [], mailboxes := fun _ => [] }

/-- A store with a single user of balance 10. -/
def stTen : Store :=
  { users := [{ id := 1, email := "a@example.com", gameCredits := 10, ownedCharacters := [] }],
    transactions := fun _ => [], inventories := fun _ => [], mailboxes := fun _ => [] }

/-- The dragon catalog row of the relational store. -/
def chDragon : Character :=
  { id := 5, name := "dragon", icon := "D", price := 500, description := "a dragon",
    is_active := true }

/-- A pending relational character gift (id 1) from user 1 to user 2 named "dragon". -/
def sgDragon : SqlGift :=
  { id := 1, sender_id := 1, recipient_id := 2, item_type := "character", item_name := "dragon",
    item_icon := "D", item_description := "a dragon", item_price := 500, message := "",
    status := "pending" }

/-- A pending relational credits gift (id 1) from user 1 to user 2 of 50 credits. -/
def sgCredits : SqlGift :=
  { id := 1, sender_id := 1, recipient_id := 2, item_type := "credits",
    item_name := "Game Credits", item_icon := "C", item_description := "", item_price := 50,
    message := "", status := "pending" }

/-- Relational store with the dragon catalog row, one pending dragon gift and no
owned characters. -/
def dbDragon : SqlDb := { characters := [chDragon], gifts := [sgDragon], user_characters := [] }

/-- Relational store where recipient 2 already owns the dragon (quantity 1,
acquired via purchase) and the dragon gift is pending. -/
def dbOwned : SqlDb :=
  { characters := [chDragon], gifts := [sgDragon],
    user_characters := [{ user_id := 2, character_id := 5, quantity := 1,
                          acquired_via := "purchase" }] }

/-- Relational store with one pending credits gift. -/
def dbCredits : SqlDb := { characters := [chDragon], gifts := [sgCredits], user_characters := [] }

/-- Catalog with two active equal-price rows whose table order is descending by
name ("b" before "a"). -/
def dbTie : SqlDb :=
  { characters :=
      [{ id := 1, name := "b", icon := "B", price := 100, description := "", is_active := true },
       { id := 2, name := "a", icon := "A", price := 100, description := "", is_active := true }],
    gifts := [], user_characters := [] }

/-- The dragon mailbox gift already settled (terminal state as the handler
leaves it: both flags set). -/
def mgClaimed : MGift := { mgDragon with claimed := true, read := true }

/-- Store whose only mailbox entry is the settled dragon gift. -/
def stTerminal : Store := mailStore mgClaimed

/-- Relational store holding a pending and a settled gift under distinct ids. -/
def dbTwo : SqlDb :=
  { characters := [chDragon],
    gifts := [sgDragon, { sgDragon with id := 2, status := "claimed" }],
    user_characters := [] }

/-- User 2 already owning the dragon. -/
def user2d : User := { user2 with ownedCharacters := ["dragon"] }

/-- Store where user 2 owns the dragon and the dragon gift is pending. -/
def stOwns : Store := { mailStore mgDragon with users := [user2d] }

/-- User 2 with 600 credits, owning the dragon. -/
def user9 : User :=
  { id := 2, email := "b@example.com", gameCredits := 600, ownedCharacters := ["dragon"] }

/-- Store with the single rich dragon owner (for the repurchase witness). -/
def stRich : Store :=
  { users := [user9], transactions := fun _ => [],
    inventories := fun _ => [], mailboxes := fun _ => [] }

/-- The purchase payload for the dragon. -/
def cdDragon : CharacterData :=
  { name := "dragon", icon := "D", description := "a dragon", price := 500 }

/-- A concrete request sequence with non-negative amounts. -/
def opsDemo : List (Nat × Int × String) := [(1, 5, "add"), (1, 100, "subtract"), (1, 3, "bonus")]

/-- A record coming out of `updateUserById` is the written record or one of the
original ones. -/
theorem mem_updateUserById {us : List User} {userId : Nat} {u v : User}
    (hv : v ∈ updateUserById us userId u) : v = u ∨ v ∈ us := by
  induction us with
  | nil => simp [updateUserById] at hv
  | cons w ws ih =>
    rw [updateUserById] at hv
    by_cases h : (w.id == userId) = true
    · rw [if_pos h] at hv
      rcases List.mem_cons.mp hv with h1 | h1
      · exact .inl h1
      · exact .inr (List.mem_cons_of_mem _ h1)
    · rw [if_neg h] at hv
      rcases List.mem_cons.mp hv with h1 | h1
      · exact .inr (h1 ▸ List.mem_cons_self _ _)
      · rcases ih h1 with h2 | h2
        · exact .inl h2
        · exact .inr (List.mem_cons_of_mem _ h2)

/-- `find?` on a cons cell, written as a conditional. -/
theorem find?_cons_eq {α : Type} (p : α → Bool) (a : α) (l : List α) :
    List.find? p (a :: l) = if p a then some a else List.find? p l := by
  by_cases h : p a = true
  · simp [h]
  · simp [h]

/-- Writing back the record `find?` located, unchanged, leaves the user list
unchanged. -/
theorem updateUserById_self {us : List User} {userId : Nat} {u : User}
    (hf : us.find? (fun v => v.id == userId) = some u) : updateUserById us userId u = us := by
  induction us with
  | nil => simp at hf
  | cons w ws ih =>
    rw [find?_cons_eq] at hf
    by_cases h : (w.id == userId) = true
    · rw [if_pos h] at hf
      obtain rfl : w = u := by injection hf
      rw [updateUserById, if_pos h]
    · rw [if_neg h] at hf
      rw [updateUserById, if_neg h, ih hf]

/-- Writing back the gift record `findIndex` located, unchanged, leaves the
mailbox unchanged. -/
theorem mailboxReplace_self {mb : List MGift} {giftId : Nat} {g : MGift}
    (hf : mb.find? (fun x => x.id == giftId) = some g) : mailboxReplace mb giftId g = mb := by
  induction mb with
  | nil => simp at hf
  | cons w ws ih =>
    rw [find?_cons_eq] at hf
    by_cases h : (w.id == giftId) = true
    · rw [if_pos h] at hf
      obtain rfl : w = g := by injection hf
      rw [mailboxReplace, if_pos h]
    · rw [if_neg h] at hf
      rw [mailboxReplace, if_neg h, ih hf]

/-- One `POST /api/credits/update` request with a non-negative amount keeps all
balances non-negative. -/
theorem creditsUpdate_nonneg {st : Store} (userId : Nat) (amount : Int) (operation : String)
    (h0 : ∀ u ∈ st.users, 0 ≤ u.gameCredits) (ha : 0 ≤ amount) :
    ∀ u ∈ (creditsUpdate st userId amount operation).2.users, 0 ≤ u.gameCredits := by
  intro v hv
  unfold creditsUpdate at hv
  cases hf : st.users.find? (fun u => u.id == userId) with
  | none => rw [hf] at hv; exact h0 v hv
  | some user =>
    rw [hf] at hv
    dsimp only at hv
    have huser : user ∈ st.users := List.mem_of_find?_eq_some hf
    by_cases h1 : operation = "add"
    · rw [if_pos h1] at hv
      simp only [creditsFinish] at hv
      rcases mem_updateUserById hv with rfl | h2
      · exact add_nonneg (h0 user huser) ha
      · exact h0 v h2
    · rw [if_neg h1] at hv
      by_cases h2 : operation = "subtract"
      · rw [if_pos h2] at hv
        by_cases h3 : user.gameCredits < amount
        · rw [if_pos h3] at hv; exact h0 v hv
        · rw [if_neg h3] at hv
          simp only [creditsFinish] at hv
          rcases mem_updateUserById hv with rfl | h4
          · simpa using sub_nonneg.mpr (not_lt.mp h3)
          · exact h0 v h4
      · rw [if_neg h2] at hv
        simp only [creditsFinish] at hv
        rcases mem_updateUserById hv with rfl | h4
        · exact h0 _ huser
        · exact h0 v h4

/-- A whole sequence of non-negative-amount requests keeps all balances
non-negative. -/
theorem runCredits_nonneg {ops : List (Nat × Int × String)} :
    ∀ {st : Store}, (∀ u ∈ st.users, 0 ≤ u.gameCredits) → (∀ p ∈ ops, 0 ≤ p.2.1) →
      ∀ u ∈ (runCredits st ops).users, 0 ≤ u.gameCredits := by
  induction ops with
  | nil => intro st h0 _; exact h0
  | cons p ps ih =>
    intro st h0 hops
    have hstep := creditsUpdate_nonneg p.1 p.2.1 p.2.2 h0 (hops p (List.mem_cons_self _ _))
    exact ih hstep (fun q hq => hops q (List.mem_cons_of_mem _ hq))

/-- C1: the claim says a second sequential claim of the same gift performs no
second settlement and returns a terminal-state error. The mailbox handler
violates it: it never checks the `claimed` flag, so the second `accept` call on
the already-claimed dragon gift answers success again and appends a second
`source = "gift"` inventory row. The relational handler, by contrast, does
answer the terminal-state error on the second call. -/
theorem mailbox_double_claim_settles_twice :
    ((claimGiftMailbox (mailStore mgDragon) 2 1 "accept").1
        = .ok "Gift accepted successfully" ∧
     (claimGiftMailbox (claimGiftMailbox (mailStore mgDragon) 2 1 "accept").2 2 1 "accept").1
        = .ok "Gift accepted successfully" ∧
     (claimGiftMailbox (claimGiftMailbox (mailStore mgDragon) 2 1 "accept").2 2 1
         "accept").2.inventories 2
        = [invItemOf gdDragon "gift", invItemOf gdDragon "gift"]) ∧
    (sqlClaim (sqlClaim dbDragon 1 2).2 1 2).1 = .notFound "Gift not found or already claimed" := by
  decide

/-- C2 counterexample: `POST /api/credits/update` does not validate the amount,
so an `add` of -5 on a zero-balance user is accepted and drives the stored
balance to -5, below 0. -/
theorem creditsUpdate_negative_add_breaks_nonneg :
    (creditsUpdate stZero 1 (-5) "add").1 = .ok (-5) ∧
    balanceOf (creditsUpdate stZero 1 (-5) "add").2 1 = some (-5) ∧
    (-5 : Int) < 0 := by
  decide

/-- C2 (amended): over request sequences whose amounts are all non-negative,
every stored balance stays non-negative; and a `subtract` whose amount exceeds
the current balance is rejected with the insufficient-credits error and leaves
the whole store unchanged (no partial debit, no transaction row). -/
theorem balances_nonneg_of_nonneg_amounts
    (st : Store) (ops : List (Nat × Int × String))
    (h0 : ∀ u ∈ st.users, 0 ≤ u.gameCredits)
    (hops : ∀ p ∈ ops, 0 ≤ p.2.1) :
    (∀ u ∈ (runCredits st ops).users, 0 ≤ u.gameCredits) ∧
    (∀ (userId : Nat) (amount : Int) (u : User),
        st.users.find? (fun v => v.id == userId) = some u →
        u.gameCredits < amount →
        creditsUpdate st userId amount "subtract" = (.insufficientCredits, st)) := by
  refine ⟨runCredits_nonneg h0 hops, ?_⟩
  intro userId amount u hf hlt
  unfold creditsUpdate
  rw [hf]
  dsimp only
  rw [if_neg (by decide : ¬("subtract" : String) = "add")]
  rw [if_pos (rfl : ("subtract" : String) = "subtract")]
  rw [if_pos hlt]

/-- Witness for `balances_nonneg_of_nonneg_amounts` at the one-user store of
balance 10 and a concrete three-request sequence. -/
theorem balances_nonneg_of_nonneg_amounts_witness :
    (∀ u ∈ (runCredits stTen opsDemo).users, 0 ≤ u.gameCredits) ∧
    (∀ (userId : Nat) (amount : Int) (u : User),
        stTen.users.find? (fun v => v.id == userId) = some u →
        u.gameCredits < amount →
        creditsUpdate stTen userId amount "subtract" = (.insufficientCredits, stTen)) :=
  balances_nonneg_of_nonneg_amounts stTen opsDemo (by decide) (by decide)

/-- C10: for an existing user and an operation other than `add`/`subtract`,
`POST /api/credits/update` answers success with the unchanged balance, yet
still appends a transaction entry whose amount is the negated input amount and
whose type is the unrecognized operation string. -/
theorem creditsUpdate_unknown_operation
    (st : Store) (userId : Nat) (amount : Int) (operation : String) (user : User)
    (hu : st.users.find? (fun v => v.id == userId) = some user)
    (h1 : operation ≠ "add") (h2 : operation ≠ "subtract") :
    creditsUpdate st userId amount operation =
      (.ok user.gameCredits,
       { st with
         transactions :=
           Function.update st.transactions userId
             (st.transactions userId ++
               [{ amount := -amount, type := operation, balance := user.gameCredits }]) }) := by
  unfold creditsUpdate creditsFinish
  rw [hu]
  dsimp only
  simp only [if_neg h1, if_neg h2]
  rw [updateUserById_self hu]

/-- Witness for `creditsUpdate_unknown_operation`: operation `bonus`, amount 7,
on the balance-10 store. -/
theorem creditsUpdate_unknown_operation_witness :
    creditsUpdate stTen 1 7 "bonus" =
      (.ok 10,
       { stTen with
         transactions :=
           Function.update stTen.transactions 1
             (stTen.transactions 1 ++
               [{ amount := -7, type := "bonus", balance := 10 }]) }) :=
  creditsUpdate_unknown_operation stTen 1 7 "bonus"
    { id := 1, email := "a@example.com", gameCredits := 10, ownedCharacters := [] }
    (by decide) (by decide) (by decide)

/-- C9: an existing user who already owns the character and can afford it can
still buy it again: the purchase succeeds, the full price is debited, a fresh
`source = "purchase"` inventory row is appended, and the owned-characters set
is unchanged (the duplicate guard covers only that set). -/
theorem purchase_already_owned
    (st : Store) (userId : Nat) (characterId : String) (cd : CharacterData) (user : User)
    (hu : st.users.find? (fun v => v.id == userId) = some user)
    (hown : user.ownedCharacters.contains characterId = true)
    (hb : cd.price ≤ user.gameCredits) :
    purchaseCharacter st userId characterId cd =
      (.ok (user.gameCredits - cd.price) user.ownedCharacters,
       { st with
         users := updateUserById st.users userId
           { user with gameCredits := user.gameCredits - cd.price },
         inventories := Function.update st.inventories userId
           (st.inventories userId ++
             [{ characterId := characterId, name := cd.name, icon := cd.icon,
                description := cd.description, price := cd.price, source := "purchase" }]) }) := by
  unfold purchaseCharacter
  rw [hu]
  dsimp only
  rw [if_neg (not_lt.mpr hb)]
  rw [if_pos hown]

/-- Witness for `purchase_already_owned`: the dragon owner with 600 credits
buys the dragon again. -/
theorem purchase_already_owned_witness :
    purchaseCharacter stRich 2 "dragon" cdDragon =
      (.ok (600 - 500) ["dragon"],
       { stRich with
         users := updateUserById stRich.users 2 { user9 with gameCredits := 600 - 500 },
         inventories := Function.update stRich.inventories 2
           (stRich.inventories 2 ++
             [{ characterId := "dragon", name := "dragon", icon := "D",
                description := "a dragon", price := 500, source := "purchase" }]) }) :=
  purchase_already_owned stRich 2 "dragon" cdDragon user9 (by decide) (by decide) (by decide)

/-- C4: the claim says claiming a pending 50-credit gift raises the recipient's
balance by exactly 50 and logs one +50 transaction. Neither handler does this.
The mailbox handler's credits branch calls the nonexistent
`this.updateUserCredits`, so the request throws and answers 500 with the store
untouched (no balance change, no transaction, gift still unclaimed); the
relational handler marks the gift claimed but has no credits branch at all, so
the only change is the status flip — no credit is ever granted. -/
theorem credits_gift_claim_never_settles :
    (claimGiftMailbox (mailStore mgCredits) 2 1 "accept").1
        = .serverError "Failed to process gift" ∧
    (claimGiftMailbox (mailStore mgCredits) 2 1 "accept").2 = mailStore mgCredits ∧
    sqlClaim dbCredits 1 2 =
      (.ok "Gift claimed successfully",
       { dbCredits with gifts := [{ sgCredits with status := "claimed" }] }) := by
  refine ⟨rfl, rfl, by decide⟩

/-- C5: the claim says rejecting a pending character gift appends exactly one
`source = "returned"` row to the sender's inventory and leaves the recipient
untouched. The mailbox handler does exactly that, but the relational reject
handler only flips the status: no row is ever written back for the sender. -/
theorem sql_reject_returns_nothing_to_sender :
    sqlReject dbDragon 1 2 =
      (.ok "Gift rejected successfully",
       { dbDragon with gifts := [{ sgDragon with status := "rejected" }] }) ∧
    (claimGiftMailbox (mailStore mgDragon) 2 1 "reject").2.inventories 1
        = [invItemOf gdDragon "returned"] ∧
    (claimGiftMailbox (mailStore mgDragon) 2 1 "reject").2.inventories 2 = [] ∧
    (claimGiftMailbox (mailStore mgDragon) 2 1 "reject").2.users
        = (mailStore mgDragon).users := by
  decide

/-- C7 counterexample: in the relational claim handler, claiming a dragon gift
when the recipient already owns the dragon does not leave the owned-characters
record unchanged — the `ON CONFLICT` clause increments its quantity from 1
to 2. -/
theorem sql_claim_increments_quantity :
    (sqlClaim dbOwned 1 2).2.user_characters
        = [{ user_id := 2, character_id := 5, quantity := 2, acquired_via := "purchase" }] ∧
    (sqlClaim dbOwned 1 2).2.user_characters ≠ dbOwned.user_characters := by
  decide

/-- C8 counterexample: with two active equal-price characters stored in
name-descending table order, the listing is not sorted by (price, name): the
SQL orders by price alone, so the tie keeps table order. -/
theorem listActive_no_name_tiebreak :
    ¬ (listActive dbTie).Pairwise priceNameLE := by
  intro h
  have hlist : listActive dbTie =
      [{ id := 1, name := "b", icon := "B", price := 100, description := "", is_active := true },
       { id := 2, name := "a", icon := "A", price := 100, description := "", is_active := true }] := by
    decide
  rw [hlist] at h
  have hrel := (List.pairwise_cons.mp h).1 _ (List.mem_cons_self _ _)
  rcases hrel with h1 | ⟨_, h3⟩
  · exact absurd h1 (by decide)
  · have : ¬ ("b" : String) ≤ "a" := by
      rw [String.le_iff_toList_le]
      decide
    exact this h3

/-- C8 (amended): the catalog listing returns exactly the active characters
(as a permutation of the `is_active` filter of the table) sorted ascending by
price; equal-price rows keep the table's order (stable sort), with no name
tiebreak. -/
theorem listActive_sorted_by_price (db : SqlDb) :
    (listActive db).Sorted priceLE ∧
    (listActive db).Perm (db.characters.filter (fun c => c.is_active)) :=
  ⟨List.sorted_insertionSort priceLE _, List.perm_insertionSort priceLE _⟩

/-- C6: a claim or reject by any user who is not the gift's recipient fails
with the not-found error and modifies nothing, and the response is identical
to the one for a gift id that does not exist at all (here `freshId`), which
also modifies nothing. -/
theorem ownership_isolation
    (db : SqlDb) (giftId freshId actingUserId : Nat)
    (hnotmine : ∀ g ∈ db.gifts, g.id = giftId → g.recipient_id ≠ actingUserId)
    (hfresh : ∀ g ∈ db.gifts, g.id ≠ freshId) :
    sqlClaim db giftId actingUserId = (.notFound "Gift not found or already claimed", db) ∧
    sqlClaim db freshId actingUserId = (.notFound "Gift not found or already claimed", db) ∧
    sqlReject db giftId actingUserId = (.notFound "Gift not found or already processed", db) ∧
    sqlReject db freshId actingUserId = (.notFound "Gift not found or already processed", db) := by
  have hp1 : ∀ g ∈ db.gifts,
      ¬((g.id == giftId && g.recipient_id == actingUserId && g.status == "pending") = true) := by
    intro g hg h
    simp only [Bool.and_eq_true, beq_iff_eq] at h
    exact hnotmine g hg h.1.1 h.1.2
  have hp2 : ∀ g ∈ db.gifts,
      ¬((g.id == freshId && g.recipient_id == actingUserId && g.status == "pending") = true) := by
    intro g hg h
    simp only [Bool.and_eq_true, beq_iff_eq] at h
    exact hfresh g hg h.1.1
  have hclaim : ∀ gid : Nat,
      (∀ g ∈ db.gifts,
        ¬((g.id == gid && g.recipient_id == actingUserId && g.status == "pending") = true)) →
      sqlClaim db gid actingUserId = (.notFound "Gift not found or already claimed", db) := by
    intro gid hp
    unfold sqlClaim
    rw [List.find?_eq_none.mpr hp]
  have hreject : ∀ gid : Nat,
      (∀ g ∈ db.gifts,
        ¬((g.id == gid && g.recipient_id == actingUserId && g.status == "pending") = true)) →
      sqlReject db gid actingUserId = (.notFound "Gift not found or already processed", db) := by
    intro gid hp
    have hcnt : db.gifts.countP (rejectPred gid actingUserId) = 0 :=
      List.countP_eq_zero.mpr hp
    have hmapid : db.gifts.map (fun g =>
        if rejectPred gid actingUserId g then { g with status := "rejected" } else g) = db.gifts := by
      have hcongr : ∀ g ∈ db.gifts,
          (if rejectPred gid actingUserId g then { g with status := "rejected" } else g) = id g := by
        intro g hg
        rw [if_neg (show ¬(rejectPred gid actingUserId g = true) from hp g hg)]
        rfl
      rw [List.map_congr_left hcongr, List.map_id]
    unfold sqlReject
    dsimp only
    rw [if_pos hcnt, hmapid]
  exact ⟨hclaim giftId hp1, hclaim freshId hp2, hreject giftId hp1, hreject freshId hp2⟩

/-- Witness for `ownership_isolation`: user 3 acting on user 2's pending gift
(id 1), and on the nonexistent gift id 99. -/
theorem ownership_isolation_witness :
    sqlClaim dbDragon 1 3 = (.notFound "Gift not found or already claimed", dbDragon) ∧
    sqlClaim dbDragon 99 3 = (.notFound "Gift not found or already claimed", dbDragon) ∧
    sqlReject dbDragon 1 3 = (.notFound "Gift not found or already processed", dbDragon) ∧
    sqlReject dbDragon 99 3 = (.notFound "Gift not found or already processed", dbDragon) :=
  ownership_isolation dbDragon 1 99 3 (by decide) (by decide)

/-- C7 (amended): in the mailbox handler, claiming a character gift whose
character the recipient already owns leaves the user records unchanged
(idempotent union, no duplicate entry) while still appending the
`source = "gift"` inventory row; in the relational handler, the matching
`user_characters` row instead has its quantity incremented by 1. -/
theorem claim_character_already_owned
    (st : Store) (userId giftId : Nat) (gift : MGift) (user : User)
    (hg : (st.mailboxes userId).find? (fun g => g.id == giftId) = some gift)
    (hty : gift.giftType = "character")
    (hu : st.users.find? (fun u => u.id == userId) = some user)
    (hown : user.ownedCharacters.contains gift.giftData.characterId = true)
    (db : SqlDb) (sgId suId : Nat) (sg : SqlGift) (ch : Character) (r : UserCharacter)
    (hsg : db.gifts.find? (fun g =>
        g.id == sgId && g.recipient_id == suId && g.status == "pending") = some sg)
    (hsty : sg.item_type = "character")
    (hch : db.characters.find? (fun c => c.name == sg.item_name) = some ch)
    (hr : r ∈ db.user_characters) (hru : r.user_id = suId) (hrc : r.character_id = ch.id) :
    ((claimGiftMailbox st userId giftId "accept").2.users = st.users ∧
     (claimGiftMailbox st userId giftId "accept").2.inventories userId
        = st.inventories userId ++ [invItemOf gift.giftData "gift"]) ∧
    { r with quantity := r.quantity + 1 } ∈ (sqlClaim db sgId suId).2.user_characters := by
  constructor
  · unfold claimGiftMailbox
    rw [hg]
    dsimp only
    rw [if_pos (rfl : ("accept" : String) = "accept"), if_pos hty]
    rw [hu]
    dsimp only
    rw [if_pos hown]
    unfold finishMailbox
    refine ⟨rfl, ?_⟩
    dsimp only
    rw [Function.update_same]
  · unfold sqlClaim
    rw [hsg]
    dsimp only
    rw [if_pos hsty, hch]
    dsimp only
    unfold upsertUserChar
    have hkey : (r.user_id == suId && r.character_id == ch.id) = true := by
      simp [hru, hrc]
    have hany : db.user_characters.any
        (fun x => x.user_id == suId && x.character_id == ch.id) = true :=
      List.any_eq_true.mpr ⟨r, hr, hkey⟩
    rw [if_pos hany]
    exact List.mem_map.mpr ⟨r, hr, by rw [if_pos hkey]⟩

/-- Witness for `claim_character_already_owned`: user 2 already owning the
dragon claims another dragon gift, in both stores. -/
theorem claim_character_already_owned_witness :
    ((claimGiftMailbox stOwns 2 1 "accept").2.users = stOwns.users ∧
     (claimGiftMailbox stOwns 2 1 "accept").2.inventories 2
        = stOwns.inventories 2 ++ [invItemOf mgDragon.giftData "gift"]) ∧
    ({ user_id := 2, character_id := 5, quantity := 1, acquired_via := "purchase" } :
        UserCharacter).quantity + 1 = 2 ∧
    ({ user_id := 2, character_id := 5, quantity := 2, acquired_via := "purchase" } :
        UserCharacter) ∈ (sqlClaim dbOwned 1 2).2.user_characters := by
  have h := claim_character_already_owned stOwns 2 1 mgDragon user2d
    (by decide) (by decide) (by decide) (by decide)
    dbOwned 1 2 sgDragon chDragon
    { user_id := 2, character_id := 5, quantity := 1, acquired_via := "purchase" }
    (by decide) (by decide) (by decide) (by decide) (by decide) (by decide)
  exact ⟨h.1, rfl, h.2⟩

/-- In a list with pairwise-distinct ids (the primary-key invariant of the
`gifts` table), two members with the same id are the same row. -/
theorem eq_of_mem_of_pairwise_ne {l : List SqlGift}
    (hp : l.Pairwise (fun a b => a.id ≠ b.id))
    {a b : SqlGift} (ha : a ∈ l) (hb : b ∈ l) (hid : a.id = b.id) : a = b := by
  induction l with
  | nil => simp at ha
  | cons x xs ih =>
    rcases List.mem_cons.mp ha with rfl | ha'
    · rcases List.mem_cons.mp hb with rfl | hb'
      · rfl
      · exact absurd hid ((List.pairwise_cons.mp hp).1 b hb')
    · rcases List.mem_cons.mp hb with rfl | hb'
      · exact absurd hid.symm ((List.pairwise_cons.mp hp).1 a ha')
      · exact ih (List.pairwise_cons.mp hp).2 ha' hb'

/-- A pointwise relation between a list and its image under a map. -/
theorem forall₂_map_self {α : Type} {R : α → α → Prop} {f : α → α} :
    ∀ {l : List α}, (∀ a ∈ l, R a (f a)) → List.Forall₂ R l (l.map f)
  | [], _ => List.Forall₂.nil
  | a :: _, h =>
    List.Forall₂.cons (h a (List.mem_cons_self _ _))
      (forall₂_map_self fun x hx => h x (List.mem_cons_of_mem _ hx))

/-- Setting both mailbox flags on a record that already has them set gives the
same record back. -/
theorem mgift_set_flags_self {g : MGift} (hc : g.claimed = true) (hr : g.read = true) :
    ({ g with claimed := true, read := true } : MGift) = g := by
  cases g with
  | mk i s rc gt gd m rd cl =>
    dsimp only at hc hr
    subst hc
    subst hr
    rfl

/-- Once every copy of the gift in the acting user's mailbox carries both
terminal flags, `POST /api/mailbox/claim-gift` leaves every mailbox unchanged,
whatever the action. -/
theorem claimGiftMailbox_preserves_mailboxes
    (st : Store) (userId giftId : Nat) (action : String)
    (hterm : ∀ g ∈ st.mailboxes userId, g.id = giftId → g.claimed = true ∧ g.read = true) :
    (claimGiftMailbox st userId giftId action).2.mailboxes = st.mailboxes := by
  unfold claimGiftMailbox
  cases hf : (st.mailboxes userId).find? (fun g => g.id == giftId) with
  | none => rfl
  | some gift =>
    dsimp only
    have hgmem : gift ∈ st.mailboxes userId := List.mem_of_find?_eq_some hf
    have hid : gift.id = giftId := by
      have := List.find?_some hf
      simpa using this
    obtain ⟨hc, hr⟩ := hterm gift hgmem hid
    have hself : ({ gift with claimed := true, read := true } : MGift) = gift :=
      mgift_set_flags_self hc hr
    have hrep : mailboxReplace (st.mailboxes userId) giftId gift = st.mailboxes userId :=
      mailboxReplace_self hf
    by_cases ha : action = "accept"
    · rw [if_pos ha]
      by_cases ht : gift.giftType = "character"
      · rw [if_pos ht]
        cases hu : st.users.find? (fun u => u.id == userId) with
        | none =>
          unfold finishMailbox
          dsimp only
          rw [hself, hrep, Function.update_eq_self]
        | some user =>
          dsimp only
          by_cases ho : user.ownedCharacters.contains gift.giftData.characterId = true
          · rw [if_pos ho]
            unfold finishMailbox
            dsimp only
            rw [hself, hrep, Function.update_eq_self]
          · rw [if_neg ho]
            unfold finishMailbox
            dsimp only
            rw [hself, hrep, Function.update_eq_self]
      · rw [if_neg ht]
        by_cases hcr : gift.giftType = "credits"
        · rw [if_pos hcr]
        · rw [if_neg hcr]
          unfold finishMailbox
          dsimp only
          rw [hself, hrep, Function.update_eq_self]
    · rw [if_neg ha]
      by_cases hrj : action = "reject"
      · rw [if_pos hrj]
        by_cases ht : gift.giftType = "character"
        · rw [if_pos ht]
          unfold finishMailbox
          dsimp only
          rw [hself, hrep, Function.update_eq_self]
        · rw [if_neg ht]
          unfold finishMailbox
          dsimp only
          rw [hself, hrep, Function.update_eq_self]
      · rw [if_neg hrj]
        unfold finishMailbox
        dsimp only
        rw [hrep, Function.update_eq_self]

/-- Row-by-row effect of the claim handler's `UPDATE` on the gifts table:
each row is unchanged, or was pending and became claimed. Needs the
primary-key invariant because the `UPDATE` is keyed by id alone. -/
theorem sqlClaim_status_step (db : SqlDb) (giftId userId : Nat)
    (huniq : db.gifts.Pairwise (fun a b => a.id ≠ b.id)) :
    List.Forall₂
      (fun g g' => g' = g ∨ (g.status = "pending" ∧ g' = { g with status := "claimed" }))
      db.gifts (sqlClaim db giftId userId).2.gifts := by
  unfold sqlClaim
  cases hf : db.gifts.find? (fun g =>
      g.id == giftId && g.recipient_id == userId && g.status == "pending") with
  | none =>
    dsimp only
    exact List.forall₂_same.mpr (fun g _ => Or.inl rfl)
  | some gift =>
    dsimp only
    have hgmem : gift ∈ db.gifts := List.mem_of_find?_eq_some hf
    have hprops := List.find?_some hf
    simp only [Bool.and_eq_true, beq_iff_eq] at hprops
    obtain ⟨⟨hgid, _⟩, hpend⟩ := hprops
    have key : List.Forall₂
        (fun g g' => g' = g ∨ (g.status = "pending" ∧ g' = { g with status := "claimed" }))
        db.gifts
        (db.gifts.map (fun g => if g.id == giftId then { g with status := "claimed" } else g)) := by
      apply forall₂_map_self
      intro g hg
      by_cases h : (g.id == giftId) = true
      · obtain rfl : g = gift :=
          eq_of_mem_of_pairwise_ne huniq hg hgmem (by rw [beq_iff_eq] at h; rw [h, hgid])
        exact Or.inr ⟨hpend, by rw [if_pos h]⟩
      · exact Or.inl (by rw [if_neg h])
    by_cases ht : gift.item_type = "character"
    · rw [if_pos ht]
      cases hc : db.characters.find? (fun c => c.name == gift.item_name) with
      | none => exact key
      | some ch => exact key
    · rw [if_neg ht]
      exact key

/-- Row-by-row effect of the reject handler's `UPDATE` on the gifts table:
each row is unchanged, or was pending and became rejected (the `WHERE` clause
itself requires pending, so no key invariant is needed). -/
theorem sqlReject_status_step (db : SqlDb) (giftId userId : Nat) :
    List.Forall₂
      (fun g g' => g' = g ∨ (g.status = "pending" ∧ g' = { g with status := "rejected" }))
      db.gifts (sqlReject db giftId userId).2.gifts := by
  have key : List.Forall₂
      (fun g g' => g' = g ∨ (g.status = "pending" ∧ g' = { g with status := "rejected" }))
      db.gifts
      (db.gifts.map (fun g =>
        if rejectPred giftId userId g then { g with status := "rejected" } else g)) := by
    apply forall₂_map_self
    intro g _
    by_cases hp : rejectPred giftId userId g = true
    · refine Or.inr ⟨?_, by rw [if_pos hp]⟩
      unfold rejectPred at hp
      simp only [Bool.and_eq_true, beq_iff_eq] at hp
      exact hp.2
    · exact Or.inl (by rw [if_neg hp])
  unfold sqlReject
  dsimp only
  by_cases h : db.gifts.countP (rejectPred giftId userId) = 0
  · rw [if_pos h]
    exact key
  · rw [if_neg h]
    exact key

/-- C3: gift state is monotone. In the relational store, a claim or reject
call moves each gifts-table row at most from pending to the one terminal
status it targets, and rows already terminal are carried over unchanged
(given the table's primary-key invariant on ids). In the mailbox store, once
the gift record is terminal (both flags set, as the handler leaves them), any
further claim or reject call leaves every mailbox record unchanged. -/
theorem gift_status_monotone (db : SqlDb) (giftId userId : Nat)
    (st : Store) (mUserId mGiftId : Nat) (action : String)
    (huniq : db.gifts.Pairwise (fun a b => a.id ≠ b.id))
    (hterm : ∀ g ∈ st.mailboxes mUserId, g.id = mGiftId → g.claimed = true ∧ g.read = true) :
    List.Forall₂
      (fun g g' => g' = g ∨ (g.status = "pending" ∧ g' = { g with status := "claimed" }))
      db.gifts (sqlClaim db giftId userId).2.gifts ∧
    List.Forall₂
      (fun g g' => g' = g ∨ (g.status = "pending" ∧ g' = { g with status := "rejected" }))
      db.gifts (sqlReject db giftId userId).2.gifts ∧
    (claimGiftMailbox st mUserId mGiftId action).2.mailboxes = st.mailboxes :=
  ⟨sqlClaim_status_step db giftId userId huniq, sqlReject_status_step db giftId userId,
   claimGiftMailbox_preserves_mailboxes st mUserId mGiftId action hterm⟩

/-- Witness for `gift_status_monotone`: the two-gift relational store and the
already-settled mailbox gift, re-claimed. -/
theorem gift_status_monotone_witness :
    List.Forall₂
      (fun g g' => g' = g ∨ (g.status = "pending" ∧ g' = { g with status := "claimed" }))
      dbTwo.gifts (sqlClaim dbTwo 1 2).2.gifts ∧
    List.Forall₂
      (fun g g' => g' = g ∨ (g.status = "pending" ∧ g' = { g with status := "rejected" }))
      dbTwo.gifts (sqlReject dbTwo 1 2).2.gifts ∧
    (claimGiftMailbox stTerminal 2 1 "accept").2.mailboxes = stTerminal.mailboxes :=
  gift_status_monotone dbTwo 1 2 stTerminal 2 1 "accept" (by decide) (by decide)
